import Mathlib

/-!
Verification of the dynamic CRUD gateway (two variants: `REST_APIs_mssql.py`
and `REST_APIs_mysql.py`) against its specification.

The embedding models JSON scalars, one-level JSON objects, the live database
as a list of schemas each holding tables (name, columns, primary-key columns,
rows), SQLAlchemy introspection as an `Inspector` record whose calls may fail
(`Except`), the shared `MetaData` reflection cache of the MSSQL variant, and
each HTTP route handler as a total function from the parsed request body to a
response outcome.  An unhandled Python exception in a route is an
`Except.error`; the framework surfaces it as a bare 500.
-/

/-- A JSON / SQL scalar value. -/
inductive Scalar where
  | null
  | int (i : Int)
  | str (s : String)
  | bool (b : Bool)
  deriving Repr, DecidableEq

/-- A database row (and also a flat JSON object of scalars), as an
association list from column name to value. -/
abbrev Row := List (String × Scalar)

/-- A JSON value appearing as a field of a request body: either a scalar or a
one-level object of scalars (the shape of `table_data` / `update_data`). -/
inductive Value where
  | scalar (s : Scalar)
  | dict (d : Row)
  deriving Repr, DecidableEq

/-- A parsed JSON request body: association list from field name to value. -/
abbrev Body := List (String × Value)

/-- Python truthiness of a scalar (`bool(x)`). -/
def Scalar.isTruthy : Scalar → Bool
  | .null => false
  | .int i => i != 0
  | .str s => s != ""
  | .bool b => b

/-- Python truthiness of a JSON value (`None`, `0`, `""`, `False`, `{}` are
falsy). -/
def Value.isTruthy : Value → Bool
  | .scalar s => s.isTruthy
  | .dict d => !d.isEmpty

/-- Python `dict.get(k)`: the stored value, or `None` when the key is absent.
Absence is modelled by the null scalar, which is falsy like Python `None`. -/
def pyGet (d : Body) (k : String) : Value :=
  (d.lookup k).getD (Value.scalar Scalar.null)

/-- The table name a JSON value denotes when compared against the strings
returned by introspection: only a string value ever matches. -/
def valueTableName : Value → Option String
  | .scalar (.str s) => some s
  | _ => none

/-- Python `table_name in list_of_table_names` for a JSON value. -/
def tableNameMem (tn : Value) (ts : List String) : Bool :=
  match valueTableName tn with
  | some s => ts.contains s
  | none => false

/-- The payload as a dict, when it is one; `values(**payload)` /
`values(payload)` raises on anything else. -/
def asDict : Value → Option Row
  | .dict d => some d
  | _ => none

/-- A table of the live database: its name, column names, primary-key
constrained columns and current rows. -/
structure TableDef where
  name : String
  columns : List String
  pkCols : List String
  rows : List Row
  deriving Repr, DecidableEq

/-- A schema (namespace) of the live database. -/
structure SchemaDef where
  name : String
  tables : List TableDef
  deriving Repr, DecidableEq

/-- The live database: schemas in catalog enumeration order. -/
abbrev Database := List SchemaDef

/-- Catalog enumeration order of schema names (`get_schema_names`). -/
def dbSchemaNames (db : Database) : List String :=
  db.map (fun s => s.name)

/-- `get_table_names(schema=s)`: the table names of schema `s`. -/
def dbTableNames (db : Database) (s : String) : List String :=
  match db.find? (fun sch => sch.name == s) with
  | some sch => sch.tables.map (fun t => t.name)
  | none => []

/-- Look a table up in the live database by schema and table name. -/
def liveTableStr (db : Database) (s nm : String) : Option TableDef :=
  (db.find? (fun sch => sch.name == s)).bind
    (fun sch => sch.tables.find? (fun t => t.name == nm))

/-- Look a table up by schema and a JSON table-name value. -/
def liveTable (db : Database) (s : String) (tn : Value) : Option TableDef :=
  (valueTableName tn).bind (liveTableStr db s)

/-- Whether schema `s` of the live database contains a table named by the
JSON value `tn`. -/
def schemaContains (db : Database) (s : String) (tn : Value) : Bool :=
  tableNameMem tn (dbTableNames db s)

/-- Whether a row satisfies `pk_column == pk` for the given primary-key
value; a non-scalar bound value matches no row. -/
def rowMatchesPk (pkc : String) (pkv : Value) (r : Row) : Bool :=
  match pkv, r.lookup pkc with
  | .scalar sv, some cv => cv == sv
  | _, _ => false

/-- The number of rows an update/delete with this WHERE clause affects
(`result.rowcount`). -/
def countMatching (db : Database) (s nm pkc : String) (pkv : Value) : Nat :=
  match liveTableStr db s nm with
  | some t => t.rows.countP (rowMatchesPk pkc pkv)
  | none => 0

/-- Apply a SET clause to one row: each assigned column takes the new scalar
value, all other columns keep theirs. -/
def applyUpdate (data : Row) (r : Row) : Row :=
  r.map (fun kv => (kv.1, (data.lookup kv.1).getD kv.2))

/-- Execute `INSERT INTO s.nm` with the given column assignments: the new row
is appended to the table. -/
def dbInsert (db : Database) (s nm : String) (row : Row) : Database :=
  db.map (fun sch =>
    if sch.name == s then
      { sch with tables := sch.tables.map (fun t =>
          if t.name == nm then { t with rows := t.rows ++ [row] } else t) }
    else sch)

/-- Execute `UPDATE s.nm SET data WHERE pkc = pkv`. -/
def dbUpdate (db : Database) (s nm pkc : String) (pkv : Value) (data : Row) :
    Database :=
  db.map (fun sch =>
    if sch.name == s then
      { sch with tables := sch.tables.map (fun t =>
          if t.name == nm then
            { t with rows := t.rows.map (fun r =>
                if rowMatchesPk pkc pkv r then applyUpdate data r else r) }
          else t) }
    else sch)

/-- Execute `DELETE FROM s.nm WHERE pkc = pkv`. -/
def dbDelete (db : Database) (s nm pkc : String) (pkv : Value) : Database :=
  db.map (fun sch =>
    if sch.name == s then
      { sch with tables := sch.tables.map (fun t =>
          if t.name == nm then
            { t with rows := t.rows.filter (fun r => !rowMatchesPk pkc pkv r) }
          else t) }
    else sch)

/-- SQLAlchemy `inspect(engine)`: the introspection calls the engine makes,
each of which can raise (modelled as `Except.error` with the driver
message). -/
structure Inspector where
  getSchemaNames : Except String (List String)
  getTableNames : String → Except String (List String)
  getPkConstraint : String → String → Except String (List String)

/-- The inspector a healthy connection to the live database yields: every
call succeeds and reports the current catalog. -/
def inspectorOf (db : Database) : Inspector where
  getSchemaNames := Except.ok (dbSchemaNames db)
  getTableNames := fun s => Except.ok (dbTableNames db s)
  getPkConstraint := fun s t =>
    match liveTableStr db s t with
    | some td => Except.ok td.pkCols
    | none => Except.error "NoSuchTableError"

/-- An inspector whose schema enumeration succeeds but whose per-schema
table listing always raises: models introspection failing midway. -/
def failTablesInsp (schemas : List String) (e : String) : Inspector where
  getSchemaNames := Except.ok schemas
  getTableNames := fun _ => Except.error e
  getPkConstraint := fun _ _ => Except.error e

/-- The schema loop of `fetch_schema_name` (MSSQL): walk the schemas in
enumeration order, return the first containing the table; an introspection
failure propagates out of the loop. -/
def fetch_loop (insp : Inspector) (tn : Value) : List String → Except String (Option String)
  | [] => Except.ok none
  | s :: rest =>
    match insp.getTableNames s with
    | Except.error e => Except.error e
    | Except.ok tables =>
      if tableNameMem tn tables then Except.ok (some s) else fetch_loop insp tn rest

/-- `FlaskApp.fetch_schema_name` (MSSQL): resolve the owning schema of a
table name; any exception is caught, printed and turned into `None`. -/
def fetch_schema_name (insp : Inspector) (tn : Value) : Option String :=
  match insp.getSchemaNames with
  | Except.error _ => none
  | Except.ok schemas =>
    match fetch_loop insp tn schemas with
    | Except.error _ => none
    | Except.ok r => r

/-- `FlaskApp.table_exists_in_schema` (MySQL): membership of the table name
in one schema; it has no handler, so an introspection failure propagates. -/
def table_exists_in_schema (insp : Inspector) (s : String) (tn : Value) :
    Except String Bool :=
  match insp.getTableNames s with
  | Except.error e => Except.error e
  | Except.ok tables => Except.ok (tableNameMem tn tables)

/-- The inline resolution loop of every MySQL route: first schema for which
`table_exists_in_schema` holds; a raised introspection error propagates to
the route handler. -/
def mysql_find_schema (insp : Inspector) (tn : Value) : List String → Except String (Option String)
  | [] => Except.ok none
  | s :: rest =>
    match table_exists_in_schema insp s tn with
    | Except.error e => Except.error e
    | Except.ok true => Except.ok (some s)
    | Except.ok false => mysql_find_schema insp tn rest

/-- `FlaskApp.get_schemas` (MySQL): the schema list, or a caught error the
route returns as a 500 response. -/
def get_schemas (insp : Inspector) : Except String (List String) :=
  insp.getSchemaNames

/-- `FlaskApp.get_primary_key_column` (MySQL): first constrained column of
the PK constraint; an empty constraint or a raised introspection error
yields `None`. -/
def get_primary_key_column (insp : Inspector) (s : String) (tn : Value) :
    Option String :=
  match valueTableName tn with
  | none => none
  | some nm =>
    match insp.getPkConstraint s nm with
    | Except.error _ => none
    | Except.ok cols => cols.head?

/-- A JSON response a route handler produces, with its HTTP status. -/
inductive ApiOutcome where
  | rows (data : List Row) (status : Nat)
  | message (msg : String) (status : Nat)
  | error (msg : String) (status : Nat)
  deriving Repr, DecidableEq

/-- The HTTP status of a produced response. -/
def ApiOutcome.status : ApiOutcome → Nat
  | .rows _ s => s
  | .message _ s => s
  | .error _ s => s

/-- Whether the response body carries a descriptive error field. -/
def ApiOutcome.hasErrorField : ApiOutcome → Bool
  | .error _ _ => true
  | _ => false

/-- What the request-scoped database connection of a MySQL route went
through: never opened, opened and closed, or opened and abandoned by a
raised exception before `conn.close()`. -/
inductive ConnState where
  | notOpened
  | openedClosed
  | openedLeaked
  deriving Repr, DecidableEq

/-- Result of a MySQL route handler: the response, the fate of the
connection it may have opened, and the database after the request. -/
structure MysqlResult where
  outcome : ApiOutcome
  conn : ConnState
  db : Database
  deriving Repr, DecidableEq

/-- The shared `self.metadata` of the MSSQL variant: table metadata
(columns, primary-key columns) keyed by optional schema and table name,
kept across requests. -/
abbrev MetaCache := List ((Option String × String) × (List String × List String))

/-- Result of an MSSQL route handler: the response (`Except.error` is an
unhandled Python exception), the shared metadata after the request, and the
database after the request. -/
structure MssqlResult where
  response : Except String ApiOutcome
  cache : MetaCache
  db : Database
  deriving Repr

/-- The HTTP status the client observes: the handler status, or the bare
500 the framework produces for an unhandled exception. -/
def surfacedStatus : Except String ApiOutcome → Nat
  | Except.error _ => 500
  | Except.ok o => o.status

/-- Whether the client-observed response carries a descriptive error field
(the framework page for an unhandled exception carries none). -/
def surfacedHasErrorField : Except String ApiOutcome → Bool
  | Except.error _ => false
  | Except.ok o => o.hasErrorField

/-- `metadata.reflect(bind=db.engine)` in `_setup_database` (MSSQL):
tables of the connection default schema enter the shared metadata keyed
without a schema qualifier, so the schema-qualified lookups of the route
helpers never hit them. -/
def metadata_reflect (db : Database) (defaultSchema : String) : MetaCache :=
  match db.find? (fun sch => sch.name == defaultSchema) with
  | some sch => sch.tables.map (fun t => ((none, t.name), (t.columns, t.pkCols)))
  | none => []

/-- `Table(name, self.metadata, schema=s, autoload_with=engine)` (MSSQL):
when the shared metadata already holds the key, the cached table metadata
is returned without re-introspection; otherwise the live table is
introspected and stored in the shared metadata. -/
def table_autoload (cache : MetaCache) (s nm : String) (db : Database) :
    Except String ((List String × List String) × MetaCache) :=
  match cache.lookup (some s, nm) with
  | some meta => Except.ok (meta, cache)
  | none =>
    match liveTableStr db s nm with
    | some t =>
      Except.ok ((t.columns, t.pkCols), ((some s, nm), (t.columns, t.pkCols)) :: cache)
    | none => Except.error "NoSuchTableError"

/-- Restrict a live row to the columns the (possibly stale) table object
selects. -/
def projectRow (cols : List String) (r : Row) : Row :=
  cols.filterMap (fun c => (r.lookup c).map (fun v => (c, v)))

/-- `FlaskApp.read_data_from_mssql`: autoload the table through the shared
metadata, select all rows; an exception is caught and returned as an error
payload. The SELECT names the (cached) column list, so it raises when a
cached column no longer exists live, and returns rows restricted to the
cached columns. -/
def read_data_from_mssql (cache : MetaCache) (db : Database) (s : String)
    (tn : Value) : Except String (List Row) × MetaCache :=
  match valueTableName tn with
  | none => (Except.error "TypeError", cache)
  | some nm =>
    match table_autoload cache s nm db with
    | Except.error e => (Except.error e, cache)
    | Except.ok (meta, cache2) =>
      match liveTableStr db s nm with
      | none => (Except.error "Invalid object name", cache2)
      | some t =>
        if meta.1.all (fun c => t.columns.contains c) then
          (Except.ok (t.rows.map (projectRow meta.1)), cache2)
        else (Except.error "Invalid column name", cache2)

/-- `FlaskApp.add_record_to_table` (MSSQL): autoload through the shared
metadata, insert the payload; unknown payload columns and a non-dict
payload raise inside the handler and are caught as an error payload. -/
def add_record_to_table (cache : MetaCache) (db : Database) (s : String)
    (tn td : Value) : Except String String × MetaCache × Database :=
  match valueTableName tn with
  | none => (Except.error "TypeError", cache, db)
  | some nm =>
    match table_autoload cache s nm db with
    | Except.error e => (Except.error e, cache, db)
    | Except.ok (meta, cache2) =>
      match asDict td with
      | none => (Except.error "TypeError", cache2, db)
      | some row =>
        if row.all (fun kv => meta.1.contains kv.1) then
          (Except.ok "Record added successfully", cache2, dbInsert db s nm row)
        else (Except.error "CompileError: unknown column", cache2, db)

/-- `FlaskApp.update_record_in_table` (MSSQL): autoload through the shared
metadata, take the first primary-key column of the table object
(`[col for col in table.primary_key][0]` raises IndexError when there is
none), update matching rows; the affected-row count is never inspected. -/
def update_record_in_table (cache : MetaCache) (db : Database) (s : String)
    (tn pk ud : Value) : Except String String × MetaCache × Database :=
  match valueTableName tn with
  | none => (Except.error "TypeError", cache, db)
  | some nm =>
    match table_autoload cache s nm db with
    | Except.error e => (Except.error e, cache, db)
    | Except.ok (meta, cache2) =>
      match meta.2.head? with
      | none => (Except.error "IndexError: list index out of range", cache2, db)
      | some pkc =>
        match asDict ud with
        | none => (Except.error "TypeError", cache2, db)
        | some data =>
          if data.all (fun kv => meta.1.contains kv.1) then
            (Except.ok "Record updated successfully", cache2, dbUpdate db s nm pkc pk data)
          else (Except.error "CompileError: unknown column", cache2, db)

/-- `FlaskApp.delete_record_from_table` (MSSQL): autoload through the shared
metadata, take the first primary-key column, delete matching rows; the
affected-row count is never inspected. -/
def delete_record_from_table (cache : MetaCache) (db : Database) (s : String)
    (tn pk : Value) : Except String String × MetaCache × Database :=
  match valueTableName tn with
  | none => (Except.error "TypeError", cache, db)
  | some nm =>
    match table_autoload cache s nm db with
    | Except.error e => (Except.error e, cache, db)
    | Except.ok (meta, cache2) =>
      match meta.2.head? with
      | none => (Except.error "IndexError: list index out of range", cache2, db)
      | some pkc =>
        (Except.ok "Record deleted successfully", cache2, dbDelete db s nm pkc pk)

/-- Error body of the MSSQL routes when the schema of the requested table is
not resolved (the source interpolates the table name; the text is not
load-bearing here). -/
def schemaNotFoundMsg : String := "Schema for table not found."

/-- `read_table` route (MSSQL): 400 on a falsy/absent table name, 404 when no
schema owns the table, 500 when the read helper caught an exception, else
200 with the rows. A `null` request body makes `request_data.get` raise
AttributeError, which no handler catches. -/
def mssql_read_table (cache : MetaCache) (db : Database) (body : Option Body) :
    MssqlResult :=
  match body with
  | none => ⟨Except.error "AttributeError", cache, db⟩
  | some d =>
    if !(pyGet d "table_name").isTruthy then
      ⟨Except.ok (ApiOutcome.error "Table name is not provided." 400), cache, db⟩
    else
      match fetch_schema_name (inspectorOf db) (pyGet d "table_name") with
      | none => ⟨Except.ok (ApiOutcome.error schemaNotFoundMsg 404), cache, db⟩
      | some s =>
        match read_data_from_mssql cache db s (pyGet d "table_name") with
        | (Except.error e, cache2) => ⟨Except.ok (ApiOutcome.error e 500), cache2, db⟩
        | (Except.ok rows, cache2) => ⟨Except.ok (ApiOutcome.rows rows 200), cache2, db⟩

/-- `add_record` route (MSSQL): 400 when the table name or the payload is
falsy or absent, 404 when no schema owns the table, 500 when the insert
helper caught an exception, else 200. -/
def mssql_add_record (cache : MetaCache) (db : Database) (body : Option Body) :
    MssqlResult :=
  match body with
  | none => ⟨Except.error "AttributeError", cache, db⟩
  | some d =>
    if !(pyGet d "table_name").isTruthy || !(pyGet d "table_data").isTruthy then
      ⟨Except.ok (ApiOutcome.error "Table name or data is not provided." 400), cache, db⟩
    else
      match fetch_schema_name (inspectorOf db) (pyGet d "table_name") with
      | none => ⟨Except.ok (ApiOutcome.error schemaNotFoundMsg 404), cache, db⟩
      | some s =>
        match add_record_to_table cache db s (pyGet d "table_name") (pyGet d "table_data") with
        | (Except.error e, cache2, db2) => ⟨Except.ok (ApiOutcome.error e 500), cache2, db2⟩
        | (Except.ok msg, cache2, db2) => ⟨Except.ok (ApiOutcome.message msg 200), cache2, db2⟩

/-- `update_record` route (MSSQL): 400 when the table name, the primary-key
value or the update payload is falsy or absent, 404 when no schema owns the
table, 500 when the update helper caught an exception, else 200 — the
affected-row count is never consulted. -/
def mssql_update_record (cache : MetaCache) (db : Database) (body : Option Body) :
    MssqlResult :=
  match body with
  | none => ⟨Except.error "AttributeError", cache, db⟩
  | some d =>
    if !(pyGet d "table_name").isTruthy || !(pyGet d "pk").isTruthy
        || !(pyGet d "update_data").isTruthy then
      ⟨Except.ok (ApiOutcome.error "Table name, primary key (pk), or update data is not provided." 400), cache, db⟩
    else
      match fetch_schema_name (inspectorOf db) (pyGet d "table_name") with
      | none => ⟨Except.ok (ApiOutcome.error schemaNotFoundMsg 404), cache, db⟩
      | some s =>
        match update_record_in_table cache db s (pyGet d "table_name") (pyGet d "pk") (pyGet d "update_data") with
        | (Except.error e, cache2, db2) => ⟨Except.ok (ApiOutcome.error e 500), cache2, db2⟩
        | (Except.ok msg, cache2, db2) => ⟨Except.ok (ApiOutcome.message msg 200), cache2, db2⟩

/-- `delete_record` route (MSSQL): 400 when the table name or the
primary-key value is falsy or absent, 404 when no schema owns the table, 500
when the delete helper caught an exception, else 200 — the affected-row
count is never consulted. -/
def mssql_delete_record (cache : MetaCache) (db : Database) (body : Option Body) :
    MssqlResult :=
  match body with
  | none => ⟨Except.error "AttributeError", cache, db⟩
  | some d =>
    if !(pyGet d "table_name").isTruthy || !(pyGet d "pk").isTruthy then
      ⟨Except.ok (ApiOutcome.error "Table name or primary key (pk) is not provided." 400), cache, db⟩
    else
      match fetch_schema_name (inspectorOf db) (pyGet d "table_name") with
      | none => ⟨Except.ok (ApiOutcome.error schemaNotFoundMsg 404), cache, db⟩
      | some s =>
        match delete_record_from_table cache db s (pyGet d "table_name") (pyGet d "pk") with
        | (Except.error e, cache2, db2) => ⟨Except.ok (ApiOutcome.error e 500), cache2, db2⟩
        | (Except.ok msg, cache2, db2) => ⟨Except.ok (ApiOutcome.message msg 200), cache2, db2⟩

/-- ValueError text of the MySQL routes for a body that is no object or has
a required field missing. -/
def badFormatMsg : String := "Invalid JSON format: required fields must be provided."

/-- ValueError text of the MySQL routes when no schema contains the table
(the source interpolates the table name). -/
def tableNotExistMsg : String := "Table does not exist in any schema."

/-- ValueError text of the MySQL update/delete routes when the primary-key
column cannot be resolved. -/
def pkNotFoundMsg : String := "Primary key column not found for table."

/-- Message of the MySQL update/delete routes when the statement affected
zero rows (returned with status 404). -/
def noRecordFoundMsg : String := "No record found with the given primary key."

/-- `read_table` route (MySQL). `execFail` is the failure the driver raises
during `conn.execute`, if any; the generic handler turns every uncaught
exception into a 500 response, and a failure after `conn = engine.connect()`
leaves the connection unclosed. -/
def mysql_read_table (db : Database) (execFail : Option String) (body : Option Body) :
    MysqlResult :=
  match body with
  | none => ⟨ApiOutcome.error badFormatMsg 400, ConnState.notOpened, db⟩
  | some d =>
    if d.isEmpty || (d.lookup "table_name").isNone then
      ⟨ApiOutcome.error badFormatMsg 400, ConnState.notOpened, db⟩
    else
      match get_schemas (inspectorOf db) with
      | Except.error e => ⟨ApiOutcome.error e 500, ConnState.notOpened, db⟩
      | Except.ok schemas =>
        match mysql_find_schema (inspectorOf db) (pyGet d "table_name") schemas with
        | Except.error e => ⟨ApiOutcome.error e 500, ConnState.notOpened, db⟩
        | Except.ok found =>
          match found with
          | none => ⟨ApiOutcome.error tableNotExistMsg 400, ConnState.notOpened, db⟩
          | some s =>
          match liveTable db s (pyGet d "table_name") with
          | none => ⟨ApiOutcome.error "NoSuchTableError" 500, ConnState.notOpened, db⟩
          | some t =>
            match execFail with
            | some e => ⟨ApiOutcome.error e 500, ConnState.openedLeaked, db⟩
            | none => ⟨ApiOutcome.rows t.rows 200, ConnState.openedClosed, db⟩

/-- `add_record` route (MySQL): the presence checks are key-membership
checks, so a present-but-empty `table_data` passes validation and the
insert statement is built and executed. -/
def mysql_add_record (db : Database) (execFail : Option String) (body : Option Body) :
    MysqlResult :=
  match body with
  | none => ⟨ApiOutcome.error badFormatMsg 400, ConnState.notOpened, db⟩
  | some d =>
    if d.isEmpty || (d.lookup "table_name").isNone || (d.lookup "table_data").isNone then
      ⟨ApiOutcome.error badFormatMsg 400, ConnState.notOpened, db⟩
    else
      match get_schemas (inspectorOf db) with
      | Except.error e => ⟨ApiOutcome.error e 500, ConnState.notOpened, db⟩
      | Except.ok schemas =>
        match mysql_find_schema (inspectorOf db) (pyGet d "table_name") schemas with
        | Except.error e => ⟨ApiOutcome.error e 500, ConnState.notOpened, db⟩
        | Except.ok found =>
          match found with
          | none => ⟨ApiOutcome.error tableNotExistMsg 400, ConnState.notOpened, db⟩
          | some s =>
          match liveTable db s (pyGet d "table_name") with
          | none => ⟨ApiOutcome.error "NoSuchTableError" 500, ConnState.notOpened, db⟩
          | some t =>
            match asDict (pyGet d "table_data") with
            | none => ⟨ApiOutcome.error "TypeError" 500, ConnState.notOpened, db⟩
            | some row =>
              match execFail with
              | some e => ⟨ApiOutcome.error e 500, ConnState.openedLeaked, db⟩
              | none =>
                if row.all (fun kv => t.columns.contains kv.1) then
                  ⟨ApiOutcome.message "Record added successfully" 200, ConnState.openedClosed,
                    dbInsert db s t.name row⟩
                else ⟨ApiOutcome.error "CompileError: unknown column" 500, ConnState.openedLeaked, db⟩

/-- `update_record` route (MySQL): resolves the primary-key column through
`get_primary_key_column` (ValueError 400 when it is `None`), executes, and
returns 404 when the statement affected zero rows. -/
def mysql_update_record (db : Database) (execFail : Option String) (body : Option Body) :
    MysqlResult :=
  match body with
  | none => ⟨ApiOutcome.error badFormatMsg 400, ConnState.notOpened, db⟩
  | some d =>
    if d.isEmpty || (d.lookup "table_name").isNone || (d.lookup "pk").isNone
        || (d.lookup "update_data").isNone then
      ⟨ApiOutcome.error badFormatMsg 400, ConnState.notOpened, db⟩
    else
      match get_schemas (inspectorOf db) with
      | Except.error e => ⟨ApiOutcome.error e 500, ConnState.notOpened, db⟩
      | Except.ok schemas =>
        match mysql_find_schema (inspectorOf db) (pyGet d "table_name") schemas with
        | Except.error e => ⟨ApiOutcome.error e 500, ConnState.notOpened, db⟩
        | Except.ok found =>
          match found with
          | none => ⟨ApiOutcome.error tableNotExistMsg 400, ConnState.notOpened, db⟩
          | some s =>
          match get_primary_key_column (inspectorOf db) s (pyGet d "table_name") with
          | none => ⟨ApiOutcome.error pkNotFoundMsg 400, ConnState.notOpened, db⟩
          | some pkc =>
            match liveTable db s (pyGet d "table_name") with
            | none => ⟨ApiOutcome.error "NoSuchTableError" 500, ConnState.notOpened, db⟩
            | some t =>
              if !t.columns.contains pkc then
                ⟨ApiOutcome.error "KeyError" 500, ConnState.notOpened, db⟩
              else
                match asDict (pyGet d "update_data") with
                | none => ⟨ApiOutcome.error "TypeError" 500, ConnState.notOpened, db⟩
                | some data =>
                  match execFail with
                  | some e => ⟨ApiOutcome.error e 500, ConnState.openedLeaked, db⟩
                  | none =>
                    if data.all (fun kv => t.columns.contains kv.1) then
                      if countMatching db s t.name pkc (pyGet d "pk") == 0 then
                        ⟨ApiOutcome.message noRecordFoundMsg 404, ConnState.openedClosed,
                          dbUpdate db s t.name pkc (pyGet d "pk") data⟩
                      else
                        ⟨ApiOutcome.message "Record updated successfully" 200, ConnState.openedClosed,
                          dbUpdate db s t.name pkc (pyGet d "pk") data⟩
                    else ⟨ApiOutcome.error "CompileError: unknown column" 500, ConnState.openedLeaked, db⟩

/-- `delete_record` route (MySQL): resolves the primary-key column through
`get_primary_key_column` (ValueError 400 when it is `None`), executes, and
returns 404 when the statement affected zero rows. -/
def mysql_delete_record (db : Database) (execFail : Option String) (body : Option Body) :
    MysqlResult :=
  match body with
  | none => ⟨ApiOutcome.error badFormatMsg 400, ConnState.notOpened, db⟩
  | some d =>
    if d.isEmpty || (d.lookup "table_name").isNone || (d.lookup "pk").isNone then
      ⟨ApiOutcome.error badFormatMsg 400, ConnState.notOpened, db⟩
    else
      match get_schemas (inspectorOf db) with
      | Except.error e => ⟨ApiOutcome.error e 500, ConnState.notOpened, db⟩
      | Except.ok schemas =>
        match mysql_find_schema (inspectorOf db) (pyGet d "table_name") schemas with
        | Except.error e => ⟨ApiOutcome.error e 500, ConnState.notOpened, db⟩
        | Except.ok found =>
          match found with
          | none => ⟨ApiOutcome.error tableNotExistMsg 400, ConnState.notOpened, db⟩
          | some s =>
          match get_primary_key_column (inspectorOf db) s (pyGet d "table_name") with
          | none => ⟨ApiOutcome.error pkNotFoundMsg 400, ConnState.notOpened, db⟩
          | some pkc =>
            match liveTable db s (pyGet d "table_name") with
            | none => ⟨ApiOutcome.error "NoSuchTableError" 500, ConnState.notOpened, db⟩
            | some t =>
              if !t.columns.contains pkc then
                ⟨ApiOutcome.error "KeyError" 500, ConnState.notOpened, db⟩
              else
                match execFail with
                | some e => ⟨ApiOutcome.error e 500, ConnState.openedLeaked, db⟩
                | none =>
                  if countMatching db s t.name pkc (pyGet d "pk") == 0 then
                    ⟨ApiOutcome.message noRecordFoundMsg 404, ConnState.openedClosed,
                      dbDelete db s t.name pkc (pyGet d "pk")⟩
                  else
                    ⟨ApiOutcome.message "Record deleted successfully" 200, ConnState.openedClosed,
                      dbDelete db s t.name pkc (pyGet d "pk")⟩

/-- Shorthand for a string-valued JSON field. -/
def strV (s : String) : Value := Value.scalar (Scalar.str s)

/-- Shorthand for an integer-valued JSON field. -/
def intV (i : Int) : Value := Value.scalar (Scalar.int i)

/-- Example table `hr.Employees` with primary key `id` and one row. -/
def exEmployees : TableDef where
  name := "Employees"
  columns := ["id", "name"]
  pkCols := ["id"]
  rows := [[("id", Scalar.int 1), ("name", Scalar.str "Ann")]]

/-- Example database: the single schema `hr` holding `Employees`. -/
def exDb : Database := [{ name := "hr", tables := [exEmployees] }]

/-- Example table without a declared primary key. -/
def exNoPk : TableDef where
  name := "NoPk"
  columns := ["a"]
  pkCols := []
  rows := [[("a", Scalar.int 1)]]

/-- Example database holding only the primary-key-less table. -/
def exDb8 : Database := [{ name := "hr", tables := [exNoPk] }]

/-- Example database whose `Employees` row has the falsy primary-key value 0. -/
def exDb10 : Database :=
  [{ name := "hr",
     tables := [{ name := "Employees", columns := ["id", "name"], pkCols := ["id"],
                  rows := [[("id", Scalar.int 0), ("name", Scalar.str "Zed")]] }] }]

/-- Catalog before the schema change: `hr.T` has the single column `a`. -/
def exDb5a : Database :=
  [{ name := "hr",
     tables := [{ name := "T", columns := ["a"], pkCols := ["a"],
                  rows := [[("a", Scalar.int 1)]] }] }]

/-- Catalog after the schema change: `hr.T` gained the column `b`. -/
def exDb5b : Database :=
  [{ name := "hr",
     tables := [{ name := "T", columns := ["a", "b"], pkCols := ["a"],
                  rows := [[("a", Scalar.int 1), ("b", Scalar.int 2)]] }] }]

/-- An inspector that enumerates one schema and then raises on every
table listing. -/
def badInsp : Inspector := failTablesInsp ["s1"] "OperationalError"

/-- Read request for the example table. -/
def exReadBody : Body := [("table_name", strV "Employees")]

/-- Read request for a table no schema contains. -/
def exGhostBody : Body := [("table_name", strV "Ghost")]

/-- Update request whose primary-key value matches no row of `exDb`. -/
def exUpdateBody : Body :=
  [("table_name", strV "Employees"), ("pk", intV 2),
   ("update_data", Value.dict [("name", Scalar.str "Bo")])]

/-- Delete request whose primary-key value matches no row of `exDb`. -/
def exDeleteBody : Body := [("table_name", strV "Employees"), ("pk", intV 2)]

/-- Insert request whose `table_data` payload is the empty object. -/
def exEmptyInsertBody : Body :=
  [("table_name", strV "Employees"), ("table_data", Value.dict [])]

/-- Update request against the primary-key-less table. -/
def exNoPkUpdateBody : Body :=
  [("table_name", strV "NoPk"), ("pk", intV 1),
   ("update_data", Value.dict [("a", Scalar.int 2)])]

/-- Delete request against the primary-key-less table. -/
def exNoPkDeleteBody : Body := [("table_name", strV "NoPk"), ("pk", intV 1)]

/-- Update request whose primary-key value is the falsy integer 0. -/
def exZeroPkBody : Body :=
  [("table_name", strV "Employees"), ("pk", intV 0),
   ("update_data", Value.dict [("name", Scalar.str "Z")])]

/-- Read request for table `T` of the schema-change scenario. -/
def exReadBody5 : Body := [("table_name", strV "T")]

/-- A request body that carries some field but no `table_name`. -/
def exNoTableNameBody : Body := [("x", intV 1)]

/-- The live table of `exDb5b` after the schema change. -/
def exT5b : TableDef where
  name := "T"
  columns := ["a", "b"]
  pkCols := ["a"]
  rows := [[("a", Scalar.int 1), ("b", Scalar.int 2)]]

/-- Shared metadata as left by the first request of the schema-change
scenario: the columns of `hr.T` as they were before the change. -/
def exC5cache : MetaCache := [((some "hr", "T"), (["a"], ["a"]))]

theorem lookup_some_not_isEmpty {α β : Type} [BEq α] {d : List (α × β)} {k : α}
    {v : β} (h : d.lookup k = some v) : d.isEmpty = false := by
  cases d with
  | nil => simp [List.lookup] at h
  | cons a l => rfl

theorem inspectorOf_getSchemaNames (db : Database) :
    (inspectorOf db).getSchemaNames = Except.ok (dbSchemaNames db) := rfl

theorem inspectorOf_getTableNames (db : Database) (s : String) :
    (inspectorOf db).getTableNames s = Except.ok (dbTableNames db s) := rfl

theorem fetch_loop_eq_find (db : Database) (tn : Value) :
    ∀ l : List String,
      fetch_loop (inspectorOf db) tn l
        = Except.ok (l.find? (fun s => schemaContains db s tn))
  | [] => rfl
  | s :: rest => by
    by_cases h : tableNameMem tn (dbTableNames db s)
    · simp only [fetch_loop, inspectorOf_getTableNames]
      simp [h, schemaContains, List.find?_cons_of_pos]
    · simp only [fetch_loop, inspectorOf_getTableNames]
      simp [h, schemaContains, List.find?_cons_of_neg, fetch_loop_eq_find db tn rest]

theorem fetch_schema_name_eq_find (db : Database) (tn : Value) :
    fetch_schema_name (inspectorOf db) tn
      = (dbSchemaNames db).find? (fun s => schemaContains db s tn) := by
  simp only [fetch_schema_name, inspectorOf_getSchemaNames, fetch_loop_eq_find db tn]

theorem mysql_find_schema_eq_find (db : Database) (tn : Value) :
    ∀ l : List String,
      mysql_find_schema (inspectorOf db) tn l
        = Except.ok (l.find? (fun s => schemaContains db s tn))
  | [] => rfl
  | s :: rest => by
    by_cases h : tableNameMem tn (dbTableNames db s)
    · simp only [mysql_find_schema, table_exists_in_schema, inspectorOf_getTableNames]
      simp [h, schemaContains, List.find?_cons_of_pos]
    · simp only [mysql_find_schema, table_exists_in_schema, inspectorOf_getTableNames]
      simp [h, schemaContains, List.find?_cons_of_neg, mysql_find_schema_eq_find db tn rest]

theorem fetch_schema_name_failTables (schemas : List String) (e : String) (tn : Value) :
    fetch_schema_name (failTablesInsp schemas e) tn = none := by
  cases schemas <;> rfl

theorem get_pk_col_eq (db : Database) (s : String) (tn : Value) (nm : String)
    (t : TableDef) (hv : valueTableName tn = some nm)
    (ht : liveTableStr db s nm = some t) :
    get_primary_key_column (inspectorOf db) s tn = t.pkCols.head? := by
  simp only [get_primary_key_column, hv, inspectorOf, ht]

/-- Claim C3: for every table name, both resolvers walk the schemas in
catalog enumeration order and return the first schema containing a table of
that name, and any schema they return actually contains such a table
(soundness). -/
theorem c3_resolver_first_match_sound (db : Database) (tn : Value) :
    fetch_schema_name (inspectorOf db) tn
        = (dbSchemaNames db).find? (fun s => schemaContains db s tn)
      ∧ (fetch_schema_name (inspectorOf db) tn).all (fun s => schemaContains db s tn) = true
      ∧ mysql_find_schema (inspectorOf db) tn (dbSchemaNames db)
        = Except.ok ((dbSchemaNames db).find? (fun s => schemaContains db s tn)) := by
  refine ⟨fetch_schema_name_eq_find db tn, ?_, mysql_find_schema_eq_find db tn _⟩
  rw [fetch_schema_name_eq_find]
  cases hf : (dbSchemaNames db).find? (fun s => schemaContains db s tn) with
  | none => rfl
  | some s => simpa using List.find?_some hf

/-- Claim C10: in the MSSQL variant, an update or delete request whose
primary-key value is present but falsy (the integer 0, the empty string) is
rejected with 400 as a missing field, whatever the database holds. -/
theorem c10_falsy_pk_rejected (cache : MetaCache) (db : Database) (d : Body)
    (v : Value) (h1 : d.lookup "pk" = some v) (h2 : v.isTruthy = false) :
    (mssql_update_record cache db (some d)).response
        = Except.ok (ApiOutcome.error "Table name, primary key (pk), or update data is not provided." 400)
      ∧ (mssql_delete_record cache db (some d)).response
        = Except.ok (ApiOutcome.error "Table name or primary key (pk) is not provided." 400) := by
  constructor
  · simp [mssql_update_record, pyGet, h1, h2]
  · simp [mssql_delete_record, pyGet, h1, h2]

/-- Witness for C10: in `exDb10` a row with primary-key value 0 exists, yet
the update and delete requests carrying `pk = 0` are rejected with 400. -/
theorem c10_falsy_pk_rejected_witness :
    countMatching exDb10 "hr" "Employees" "id" (intV 0) = 1
      ∧ (mssql_update_record [] exDb10 (some exZeroPkBody)).response
        = Except.ok (ApiOutcome.error "Table name, primary key (pk), or update data is not provided." 400)
      ∧ (mssql_delete_record [] exDb10 (some exZeroPkBody)).response
        = Except.ok (ApiOutcome.error "Table name or primary key (pk) is not provided." 400) := by
  refine ⟨by decide, ?_, ?_⟩
  · exact (c10_falsy_pk_rejected [] exDb10 exZeroPkBody (intV 0) (by decide) (by decide)).1
  · exact (c10_falsy_pk_rejected [] exDb10 exZeroPkBody (intV 0) (by decide) (by decide)).2

/-- Counterexample for C9: in the MySQL variant the per-schema membership
check has no exception handler, so when the table listing raises, the
resolution loop propagates the exception instead of returning NotFound. -/
theorem c9_resolve_counterexample :
    mysql_find_schema badInsp (strV "t") ["s1"] = Except.error "OperationalError" := rfl

/-- Claim C9 as amended: the MSSQL `fetch_schema_name` returns `None` both
for a table contained in no schema and when introspection raises; the MySQL
inline resolution loop instead propagates a table-listing failure to the
generic route handler. -/
theorem c9_resolve_amended (db : Database) (tn : Value) (e : String)
    (hnone : ∀ s ∈ dbSchemaNames db, schemaContains db s tn = false) :
    fetch_schema_name (inspectorOf db) tn = none
      ∧ fetch_schema_name (failTablesInsp (dbSchemaNames db) e) tn = none
      ∧ (dbSchemaNames db = []
          ∨ mysql_find_schema (failTablesInsp (dbSchemaNames db) e) tn (dbSchemaNames db)
            = Except.error e) := by
  refine ⟨?_, fetch_schema_name_failTables _ _ _, ?_⟩
  · rw [fetch_schema_name_eq_find]
    exact List.find?_eq_none.mpr (fun s hs => by simp [hnone s hs])
  · cases h : dbSchemaNames db with
    | nil => exact Or.inl rfl
    | cons s rest => exact Or.inr rfl

/-- Witness for C9 as amended, at a table name no schema of `exDb`
contains. -/
theorem c9_resolve_amended_witness :
    fetch_schema_name (inspectorOf exDb) (strV "Ghost") = none
      ∧ fetch_schema_name (failTablesInsp (dbSchemaNames exDb) "boom") (strV "Ghost") = none
      ∧ (dbSchemaNames exDb = []
          ∨ mysql_find_schema (failTablesInsp (dbSchemaNames exDb) "boom") (strV "Ghost")
              (dbSchemaNames exDb) = Except.error "boom") :=
  c9_resolve_amended exDb (strV "Ghost") "boom" (by decide)

/-- Counterexample for C2: the MySQL `read_table` route answers a request
for a table contained in no schema with status 400 (a ValueError), not
404. -/
theorem c2_unknown_table_counterexample :
    (mysql_read_table exDb none (some exGhostBody)).outcome
        = ApiOutcome.error tableNotExistMsg 400
      ∧ (mysql_read_table exDb none (some exGhostBody)).outcome.status ≠ 404 := by
  exact ⟨rfl, by decide⟩

/-- Claim C2 as amended: for a request naming a table that exists in no
schema, the MSSQL variant responds 404, but the MySQL variant responds 400
with the ValueError text. -/
theorem c2_unknown_table_amended (cache : MetaCache) (db : Database) (d : Body)
    (tn : Value) (h1 : d.lookup "table_name" = some tn) (h2 : tn.isTruthy = true)
    (h3 : (dbSchemaNames db).find? (fun s => schemaContains db s tn) = none) :
    (mssql_read_table cache db (some d)).response
        = Except.ok (ApiOutcome.error schemaNotFoundMsg 404)
      ∧ (mysql_read_table db none (some d)).outcome
        = ApiOutcome.error tableNotExistMsg 400 := by
  constructor
  · simp [mssql_read_table, pyGet, h1, h2, fetch_schema_name_eq_find, h3]
  · simp [mysql_read_table, pyGet, h1, h2, lookup_some_not_isEmpty h1, get_schemas,
      inspectorOf_getSchemaNames, mysql_find_schema_eq_find, h3]

/-- Witness for C2 as amended, at the unknown table name `Ghost`. -/
theorem c2_unknown_table_amended_witness :
    (mssql_read_table [] exDb (some exGhostBody)).response
        = Except.ok (ApiOutcome.error schemaNotFoundMsg 404)
      ∧ (mysql_read_table exDb none (some exGhostBody)).outcome
        = ApiOutcome.error tableNotExistMsg 400 :=
  c2_unknown_table_amended [] exDb exGhostBody (strV "Ghost") (by decide) (by decide) (by decide)

/-- Counterexample for C6: a request whose JSON body is `null` carries no
`table_name`, and on it the MSSQL `read_table` route raises an uncaught
AttributeError (`request_data.get` on `None`): the framework surfaces a bare
500 without a descriptive error field, not a 400. -/
theorem c6_missing_table_name_counterexample :
    (mssql_read_table [] exDb none).response = Except.error "AttributeError"
      ∧ surfacedStatus (mssql_read_table [] exDb none).response = 500
      ∧ surfacedHasErrorField (mssql_read_table [] exDb none).response = false :=
  ⟨rfl, rfl, rfl⟩

/-- Claim C6 as amended: when the JSON body is an object without
`table_name`, every endpoint of both variants answers 400 with a
descriptive error field, and the MySQL variant also answers 400 on a `null`
body; only a `null` body in the MSSQL variant escapes as a bare 500. -/
theorem c6_missing_table_name_amended (cache : MetaCache) (db : Database)
    (ef : Option String) (d : Body) (h : d.lookup "table_name" = none) :
    (mssql_read_table cache db (some d)).response
        = Except.ok (ApiOutcome.error "Table name is not provided." 400)
      ∧ (mssql_add_record cache db (some d)).response
        = Except.ok (ApiOutcome.error "Table name or data is not provided." 400)
      ∧ (mssql_update_record cache db (some d)).response
        = Except.ok (ApiOutcome.error "Table name, primary key (pk), or update data is not provided." 400)
      ∧ (mssql_delete_record cache db (some d)).response
        = Except.ok (ApiOutcome.error "Table name or primary key (pk) is not provided." 400)
      ∧ (mysql_read_table db ef (some d)).outcome = ApiOutcome.error badFormatMsg 400
      ∧ (mysql_add_record db ef (some d)).outcome = ApiOutcome.error badFormatMsg 400
      ∧ (mysql_update_record db ef (some d)).outcome = ApiOutcome.error badFormatMsg 400
      ∧ (mysql_delete_record db ef (some d)).outcome = ApiOutcome.error badFormatMsg 400
      ∧ (mysql_read_table db ef none).outcome = ApiOutcome.error badFormatMsg 400 := by
  refine ⟨?_, ?_, ?_, ?_, ?_, ?_, ?_, ?_, rfl⟩
  · simp [mssql_read_table, pyGet, h, Value.isTruthy, Scalar.isTruthy]
  · simp [mssql_add_record, pyGet, h, Value.isTruthy, Scalar.isTruthy]
  · simp [mssql_update_record, pyGet, h, Value.isTruthy, Scalar.isTruthy]
  · simp [mssql_delete_record, pyGet, h, Value.isTruthy, Scalar.isTruthy]
  · simp [mysql_read_table, h]
  · simp [mysql_add_record, h]
  · simp [mysql_update_record, h]
  · simp [mysql_delete_record, h]

/-- Witness for C6 as amended, at a body carrying a field but no
`table_name`. -/
theorem c6_missing_table_name_amended_witness :
    (mssql_read_table [] exDb (some exNoTableNameBody)).response
        = Except.ok (ApiOutcome.error "Table name is not provided." 400)
      ∧ (mssql_add_record [] exDb (some exNoTableNameBody)).response
        = Except.ok (ApiOutcome.error "Table name or data is not provided." 400)
      ∧ (mssql_update_record [] exDb (some exNoTableNameBody)).response
        = Except.ok (ApiOutcome.error "Table name, primary key (pk), or update data is not provided." 400)
      ∧ (mssql_delete_record [] exDb (some exNoTableNameBody)).response
        = Except.ok (ApiOutcome.error "Table name or primary key (pk) is not provided." 400)
      ∧ (mysql_read_table exDb none (some exNoTableNameBody)).outcome = ApiOutcome.error badFormatMsg 400
      ∧ (mysql_add_record exDb none (some exNoTableNameBody)).outcome = ApiOutcome.error badFormatMsg 400
      ∧ (mysql_update_record exDb none (some exNoTableNameBody)).outcome = ApiOutcome.error badFormatMsg 400
      ∧ (mysql_delete_record exDb none (some exNoTableNameBody)).outcome = ApiOutcome.error badFormatMsg 400
      ∧ (mysql_read_table exDb none none).outcome = ApiOutcome.error badFormatMsg 400 :=
  c6_missing_table_name_amended [] exDb none exNoTableNameBody (by decide)

theorem mysql_read_leak_is_500 (db : Database) (ef : Option String) (body : Option Body) :
    (mysql_read_table db ef body).conn = ConnState.openedLeaked →
      (mysql_read_table db ef body).outcome.status = 500 := by
  unfold mysql_read_table
  repeat' split
  all_goals intro h
  all_goals first | rfl | exact absurd h (by simp)


theorem mysql_add_leak_is_500 (db : Database) (ef : Option String) (body : Option Body) :
    (mysql_add_record db ef body).conn = ConnState.openedLeaked →
      (mysql_add_record db ef body).outcome.status = 500 := by
  unfold mysql_add_record
  repeat' split
  all_goals intro h
  all_goals first | rfl | exact absurd h (by simp)


theorem mysql_update_leak_is_500 (db : Database) (ef : Option String) (body : Option Body) :
    (mysql_update_record db ef body).conn = ConnState.openedLeaked →
      (mysql_update_record db ef body).outcome.status = 500 := by
  unfold mysql_update_record
  repeat' split
  all_goals intro h
  all_goals first | rfl | exact absurd h (by simp)


theorem mysql_delete_leak_is_500 (db : Database) (ef : Option String) (body : Option Body) :
    (mysql_delete_record db ef body).conn = ConnState.openedLeaked →
      (mysql_delete_record db ef body).outcome.status = 500 := by
  unfold mysql_delete_record
  repeat' split
  all_goals intro h
  all_goals first | rfl | exact absurd h (by simp)


/-- Counterexample for C4: when `conn.execute` raises in the MySQL
`read_table` route, the generic 500 handler returns without reaching
`conn.close()`, so the acquired connection is not released on that exit
path. -/
theorem c4_connection_release_counterexample :
    (mysql_read_table exDb (some "OperationalError") (some exReadBody)).conn
        = ConnState.openedLeaked
      ∧ (mysql_read_table exDb (some "OperationalError") (some exReadBody)).outcome.status
        = 500 := ⟨rfl, rfl⟩

/-- Claim C4 as amended: in the MySQL variant the connection is released on
every exit path except the one where statement execution raises — every
response that is not the generic 500 leaves no leaked connection. -/
theorem c4_connection_release_amended (db : Database) (ef : Option String)
    (body : Option Body) :
    ((mysql_read_table db ef body).outcome.status ≠ 500 →
        (mysql_read_table db ef body).conn ≠ ConnState.openedLeaked)
      ∧ ((mysql_add_record db ef body).outcome.status ≠ 500 →
        (mysql_add_record db ef body).conn ≠ ConnState.openedLeaked)
      ∧ ((mysql_update_record db ef body).outcome.status ≠ 500 →
        (mysql_update_record db ef body).conn ≠ ConnState.openedLeaked)
      ∧ ((mysql_delete_record db ef body).outcome.status ≠ 500 →
        (mysql_delete_record db ef body).conn ≠ ConnState.openedLeaked) :=
  ⟨fun h hc => h (mysql_read_leak_is_500 db ef body hc),
   fun h hc => h (mysql_add_leak_is_500 db ef body hc),
   fun h hc => h (mysql_update_leak_is_500 db ef body hc),
   fun h hc => h (mysql_delete_leak_is_500 db ef body hc)⟩

/-- Witness for C4 as amended: the successful read of the example table
closes its connection. -/
theorem c4_connection_release_amended_witness :
    (mysql_read_table exDb none (some exReadBody)).conn ≠ ConnState.openedLeaked
      ∧ (mysql_read_table exDb none (some exReadBody)).conn = ConnState.openedClosed :=
  ⟨(c4_connection_release_amended exDb none (some exReadBody)).1 (by decide), rfl⟩

/-- Counterexample for C1: in the MSSQL variant an update and a delete whose
primary-key value matches no row (zero affected rows) still return the
200 success message — the affected-row count is never consulted. -/
theorem c1_zero_rows_counterexample :
    countMatching exDb "hr" "Employees" "id" (intV 2) = 0
      ∧ (mssql_update_record [] exDb (some exUpdateBody)).response
        = Except.ok (ApiOutcome.message "Record updated successfully" 200)
      ∧ (mssql_delete_record [] exDb (some exDeleteBody)).response
        = Except.ok (ApiOutcome.message "Record deleted successfully" 200) :=
  ⟨rfl, rfl, rfl⟩

/-- Claim C1 as amended: the MySQL update and delete routes answer a
zero-affected-rows mutation with the distinguishable 404 outcome, but the
MSSQL variant returns the 200 success message regardless of the
affected-row count. -/
theorem c1_zero_rows_amended (db : Database) (d : Body) (tn pk ud : Value)
    (nm s : String) (t : TableDef) (pkc : String) (pkrest : List String) (data : Row)
    (h1 : d.lookup "table_name" = some tn) (h2 : d.lookup "pk" = some pk)
    (h3 : d.lookup "update_data" = some ud)
    (htn : tn.isTruthy = true) (hpkt : pk.isTruthy = true) (hudt : ud.isTruthy = true)
    (hv : valueTableName tn = some nm)
    (hres : (dbSchemaNames db).find? (fun x => schemaContains db x tn) = some s)
    (ht : liveTableStr db s nm = some t)
    (hpk : t.pkCols = pkc :: pkrest) (hcol : pkc ∈ t.columns)
    (hud : asDict ud = some data)
    (hkeys : data.all (fun kv => t.columns.contains kv.1) = true)
    (hcnt : countMatching db s t.name pkc pk = 0) :
    (mysql_update_record db none (some d)).outcome = ApiOutcome.message noRecordFoundMsg 404
      ∧ (mysql_delete_record db none (some d)).outcome = ApiOutcome.message noRecordFoundMsg 404
      ∧ (mssql_update_record [] db (some d)).response
        = Except.ok (ApiOutcome.message "Record updated successfully" 200)
      ∧ (mssql_delete_record [] db (some d)).response
        = Except.ok (ApiOutcome.message "Record deleted successfully" 200) := by
  refine ⟨?_, ?_, ?_, ?_⟩
  · simp [mysql_update_record, pyGet, h1, h2, h3, lookup_some_not_isEmpty h1, get_schemas,
      inspectorOf_getSchemaNames, mysql_find_schema_eq_find, hres,
      get_pk_col_eq db s tn nm t hv ht, hpk, liveTable, hv, ht, hcol, hud, hcnt]
    rw [if_pos hkeys]
  · simp [mysql_delete_record, pyGet, h1, h2, lookup_some_not_isEmpty h1, get_schemas,
      inspectorOf_getSchemaNames, mysql_find_schema_eq_find, hres,
      get_pk_col_eq db s tn nm t hv ht, hpk, liveTable, hv, ht, hcol, hcnt]
  · simp [mssql_update_record, pyGet, h1, h2, h3, htn, hpkt, hudt,
      fetch_schema_name_eq_find, hres, update_record_in_table, hv, table_autoload,
      ht, hpk, hud]
    rw [if_pos hkeys]
  · simp [mssql_delete_record, pyGet, h1, h2, htn, hpkt,
      fetch_schema_name_eq_find, hres, delete_record_from_table, hv, table_autoload,
      ht, hpk]

/-- Witness for C1 as amended, at the update/delete request with
primary-key value 2, which matches no row of `exDb`. -/
theorem c1_zero_rows_amended_witness :
    (mysql_update_record exDb none (some exUpdateBody)).outcome
        = ApiOutcome.message noRecordFoundMsg 404
      ∧ (mysql_delete_record exDb none (some exUpdateBody)).outcome
        = ApiOutcome.message noRecordFoundMsg 404
      ∧ (mssql_update_record [] exDb (some exUpdateBody)).response
        = Except.ok (ApiOutcome.message "Record updated successfully" 200)
      ∧ (mssql_delete_record [] exDb (some exUpdateBody)).response
        = Except.ok (ApiOutcome.message "Record deleted successfully" 200) :=
  c1_zero_rows_amended exDb exUpdateBody (strV "Employees") (intV 2)
    (Value.dict [("name", Scalar.str "Bo")]) "Employees" "hr" exEmployees "id" []
    [("name", Scalar.str "Bo")] (by decide) (by decide) (by decide) (by decide)
    (by decide) (by decide) (by decide) (by decide) (by decide) (by decide)
    (by decide) (by decide) (by decide) (by decide)

/-- Counterexample for C5: with the shared metadata left by a first read of
`hr.T`, a second read against the changed catalog (column `b` added) still
returns rows without `b` — the schema change is not observed — while the
MySQL variant, introspecting afresh, returns the new shape. -/
theorem c5_metadata_cache_counterexample :
    (mssql_read_table (mssql_read_table (metadata_reflect exDb5a "dbo") exDb5a
          (some exReadBody5)).cache exDb5b (some exReadBody5)).response
        = Except.ok (ApiOutcome.rows [[("a", Scalar.int 1)]] 200)
      ∧ (mysql_read_table exDb5b none (some exReadBody5)).outcome
        = ApiOutcome.rows [[("a", Scalar.int 1), ("b", Scalar.int 2)]] 200 :=
  ⟨rfl, rfl⟩

/-- Claim C5 as amended: the MySQL variant recomputes table metadata per
request from live introspection, but the MSSQL variant reuses table
metadata cached in the shared `self.metadata` by earlier requests, so its
reads return rows restricted to the previously cached column list. -/
theorem c5_metadata_cache_amended (cache : MetaCache) (db : Database) (d : Body)
    (tn : Value) (nm s : String) (t : TableDef) (cols pks : List String)
    (h1 : d.lookup "table_name" = some tn) (h2 : tn.isTruthy = true)
    (hv : valueTableName tn = some nm)
    (hres : (dbSchemaNames db).find? (fun x => schemaContains db x tn) = some s)
    (hcache : cache.lookup (some s, nm) = some (cols, pks))
    (ht : liveTableStr db s nm = some t)
    (hsub : ∀ c ∈ cols, c ∈ t.columns) :
    (mssql_read_table cache db (some d)).response
        = Except.ok (ApiOutcome.rows (t.rows.map (projectRow cols)) 200)
      ∧ (mysql_read_table db none (some d)).outcome = ApiOutcome.rows t.rows 200 := by
  constructor
  · simp [mssql_read_table, pyGet, h1, h2, fetch_schema_name_eq_find, hres,
      read_data_from_mssql, hv, table_autoload, hcache, ht]
    rw [if_pos hsub]
  · simp [mysql_read_table, pyGet, h1, lookup_some_not_isEmpty h1, get_schemas,
      inspectorOf_getSchemaNames, mysql_find_schema_eq_find, hres, liveTable, hv, ht]

/-- Witness for C5 as amended, at the cached single-column metadata of
`hr.T` against the changed catalog `exDb5b`. -/
theorem c5_metadata_cache_amended_witness :
    (mssql_read_table exC5cache exDb5b (some exReadBody5)).response
        = Except.ok (ApiOutcome.rows (exT5b.rows.map (projectRow ["a"])) 200)
      ∧ (mysql_read_table exDb5b none (some exReadBody5)).outcome
        = ApiOutcome.rows exT5b.rows 200 :=
  c5_metadata_cache_amended exC5cache exDb5b exReadBody5 (strV "T") "T" "hr" exT5b
    ["a"] ["a"] (by decide) (by decide) (by decide) (by decide) (by decide)
    (by decide) (by decide)

/-- Counterexample for C7: a present-but-empty `table_data` object passes
the key-membership validation of the MySQL `add_record` route; the insert
statement is built and executed (an empty row is appended) and the route
answers 200, not the 400 validation failure. -/
theorem c7_empty_payload_counterexample :
    (mysql_add_record exDb none (some exEmptyInsertBody)).outcome
        = ApiOutcome.message "Record added successfully" 200
      ∧ (mysql_add_record exDb none (some exEmptyInsertBody)).db
        = dbInsert exDb "hr" "Employees" []
      ∧ (mysql_add_record exDb none (some exEmptyInsertBody)).outcome.status ≠ 400 :=
  ⟨rfl, rfl, by decide⟩

/-- Claim C7 as amended: an absent payload is rejected with 400 by both
variants, and the MSSQL variant also rejects a present-but-empty payload
(falsy `{}`); the MySQL variant, whose check is key membership only,
accepts an empty payload and builds and executes the insert. -/
theorem c7_empty_payload_amended (cache : MetaCache) (db : Database)
    (ef : Option String) (d d2 : Body) (tn : Value) (nm s : String) (t : TableDef)
    (ha : d.lookup "table_data" = none)
    (h1 : d2.lookup "table_name" = some tn) (h2 : tn.isTruthy = true)
    (h3 : d2.lookup "table_data" = some (Value.dict []))
    (hv : valueTableName tn = some nm)
    (hres : (dbSchemaNames db).find? (fun x => schemaContains db x tn) = some s)
    (ht : liveTableStr db s nm = some t) :
    (mssql_add_record cache db (some d)).response
        = Except.ok (ApiOutcome.error "Table name or data is not provided." 400)
      ∧ (mysql_add_record db ef (some d)).outcome = ApiOutcome.error badFormatMsg 400
      ∧ (mssql_add_record cache db (some d2)).response
        = Except.ok (ApiOutcome.error "Table name or data is not provided." 400)
      ∧ (mysql_add_record db none (some d2)).outcome
        = ApiOutcome.message "Record added successfully" 200
      ∧ (mysql_add_record db none (some d2)).db = dbInsert db s t.name [] := by
  refine ⟨?_, ?_, ?_, ?_, ?_⟩
  · simp [mssql_add_record, pyGet, ha, Value.isTruthy, Scalar.isTruthy]
  · simp [mysql_add_record, ha]
  · simp [mssql_add_record, pyGet, h3, Value.isTruthy]
  · simp [mysql_add_record, pyGet, h1, h3, lookup_some_not_isEmpty h1, get_schemas,
      inspectorOf_getSchemaNames, mysql_find_schema_eq_find, hres, liveTable, hv, ht, asDict]
  · simp [mysql_add_record, pyGet, h1, h3, lookup_some_not_isEmpty h1, get_schemas,
      inspectorOf_getSchemaNames, mysql_find_schema_eq_find, hres, liveTable, hv, ht, asDict]

/-- Witness for C7 as amended, at a payload-less body and at the
empty-object payload against `exDb`. -/
theorem c7_empty_payload_amended_witness :
    (mssql_add_record [] exDb (some exNoTableNameBody)).response
        = Except.ok (ApiOutcome.error "Table name or data is not provided." 400)
      ∧ (mysql_add_record exDb none (some exNoTableNameBody)).outcome
        = ApiOutcome.error badFormatMsg 400
      ∧ (mssql_add_record [] exDb (some exEmptyInsertBody)).response
        = Except.ok (ApiOutcome.error "Table name or data is not provided." 400)
      ∧ (mysql_add_record exDb none (some exEmptyInsertBody)).outcome
        = ApiOutcome.message "Record added successfully" 200
      ∧ (mysql_add_record exDb none (some exEmptyInsertBody)).db
        = dbInsert exDb "hr" exEmployees.name [] :=
  c7_empty_payload_amended [] exDb none exNoTableNameBody exEmptyInsertBody
    (strV "Employees") "Employees" "hr" exEmployees (by decide) (by decide)
    (by decide) (by decide) (by decide) (by decide) (by decide)

/-- Counterexample for C8: an update on the table without a declared
primary key is answered 400 (ValueError) by the MySQL variant and 500
(caught IndexError) by the MSSQL variant — neither is the 404 the error
taxonomy promises for a missing primary key. -/
theorem c8_missing_pk_counterexample :
    (mysql_update_record exDb8 none (some exNoPkUpdateBody)).outcome
        = ApiOutcome.error pkNotFoundMsg 400
      ∧ (mysql_update_record exDb8 none (some exNoPkUpdateBody)).outcome.status ≠ 404
      ∧ (mssql_update_record [] exDb8 (some exNoPkUpdateBody)).response
        = Except.ok (ApiOutcome.error "IndexError: list index out of range" 500) :=
  ⟨rfl, by decide, rfl⟩

/-- Claim C8 as amended: when the primary key of the resolved table cannot
be found, the MySQL update/delete routes fail with the ValueError mapped to
400, and the MSSQL routes catch the IndexError and answer 500 — not 404. -/
theorem c8_missing_pk_amended (db : Database) (d : Body) (tn pk ud : Value)
    (nm s : String) (t : TableDef)
    (h1 : d.lookup "table_name" = some tn) (h2 : d.lookup "pk" = some pk)
    (h3 : d.lookup "update_data" = some ud)
    (htn : tn.isTruthy = true) (hpkt : pk.isTruthy = true) (hudt : ud.isTruthy = true)
    (hv : valueTableName tn = some nm)
    (hres : (dbSchemaNames db).find? (fun x => schemaContains db x tn) = some s)
    (ht : liveTableStr db s nm = some t) (hpk : t.pkCols = []) :
    (mysql_update_record db none (some d)).outcome = ApiOutcome.error pkNotFoundMsg 400
      ∧ (mysql_delete_record db none (some d)).outcome = ApiOutcome.error pkNotFoundMsg 400
      ∧ (mssql_update_record [] db (some d)).response
        = Except.ok (ApiOutcome.error "IndexError: list index out of range" 500)
      ∧ (mssql_delete_record [] db (some d)).response
        = Except.ok (ApiOutcome.error "IndexError: list index out of range" 500) := by
  refine ⟨?_, ?_, ?_, ?_⟩
  · simp [mysql_update_record, pyGet, h1, h2, h3, lookup_some_not_isEmpty h1, get_schemas,
      inspectorOf_getSchemaNames, mysql_find_schema_eq_find, hres,
      get_pk_col_eq db s tn nm t hv ht, hpk]
  · simp [mysql_delete_record, pyGet, h1, h2, lookup_some_not_isEmpty h1, get_schemas,
      inspectorOf_getSchemaNames, mysql_find_schema_eq_find, hres,
      get_pk_col_eq db s tn nm t hv ht, hpk]
  · simp [mssql_update_record, pyGet, h1, h2, h3, htn, hpkt, hudt,
      fetch_schema_name_eq_find, hres, update_record_in_table, hv, table_autoload, ht, hpk]
  · simp [mssql_delete_record, pyGet, h1, h2, htn, hpkt,
      fetch_schema_name_eq_find, hres, delete_record_from_table, hv, table_autoload, ht, hpk]

/-- Witness for C8 as amended, at the table `hr.NoPk` that declares no
primary key. -/
theorem c8_missing_pk_amended_witness :
    (mysql_update_record exDb8 none (some exNoPkUpdateBody)).outcome
        = ApiOutcome.error pkNotFoundMsg 400
      ∧ (mysql_delete_record exDb8 none (some exNoPkUpdateBody)).outcome
        = ApiOutcome.error pkNotFoundMsg 400
      ∧ (mssql_update_record [] exDb8 (some exNoPkUpdateBody)).response
        = Except.ok (ApiOutcome.error "IndexError: list index out of range" 500)
      ∧ (mssql_delete_record [] exDb8 (some exNoPkUpdateBody)).response
        = Except.ok (ApiOutcome.error "IndexError: list index out of range" 500) :=
  c8_missing_pk_amended exDb8 exNoPkUpdateBody (strV "NoPk") (intV 1)
    (Value.dict [("a", Scalar.int 2)]) "NoPk" "hr" exNoPk (by decide) (by decide)
    (by decide) (by decide) (by decide) (by decide) (by decide) (by decide)
    (by decide) (by decide)
